import Mathlib

/-!
# Verification of the daily-checkin bot core

A shallow embedding of the streak engine (`src/streaks.rs`), the daily
scheduler (`src/scheduler.rs`) and the registration commands
(`src/commands/user.rs`), together with theorems settling the specification
claims about them.

Modelling conventions:

* `chrono::NaiveDate` is modelled as an `Int` day number (days since the
  epoch).  `NaiveDate::succ_opt` / `pred_opt` fail only at the ends of the
  representable calendar range, and every call site in the source
  immediately unwraps with a same-date fallback; over `Int` the successor
  and predecessor are total, so they are modelled as `+ 1` / `- 1`.
* `chrono::DateTime<Utc>` is modelled as an `Int` count of seconds since
  the epoch.  `DateTime::date_naive` floors to the containing day, which
  for the positive divisor 86400 is Lean's `/` on `Int` (Euclidean
  division agrees with flooring for positive divisors).
  `chrono::Duration::num_hours` and `num_days` truncate toward zero, which
  is `Int.tdiv`.
* `HashMap<K, V>` is modelled as a function `K → Option V`; insertion and
  in-place mutation through `get_mut` become pointwise functional update.
* The wall clock (`Utc::now()`) is passed in explicitly as a `now`
  parameter wherever the source reads it.
* `data.rs` in this revision carries a divergent draft of `DailyPost`
  (a `post_date` field and `Vec`-per-guild storage) that the rest of the
  code does not use; the embedding follows the shape `streaks.rs` and
  `scheduler.rs` actually construct and read: a single latest post per
  guild carrying `posted_at`, plus a nested guild → user map mutated in
  place.  The `checkins` map of the draft is written by no code path in
  scope and is omitted.
-/

/-- Model of `UserData` from `src/data.rs`: one participant's registration record and
streak state.  `u32` streak counters become `Nat`; dates and timestamps are
`Option Int` / `Int` per the conventions above. -/
structure UserData where
  user_id : String
  goal : String
  current_streak : Nat
  longest_streak : Nat
  last_checkin_date : Option Int
  grace_period_start : Option Int
  is_active : Bool
  created_at : Int
  updated_at : Int
deriving DecidableEq

/-- Model of `ServerConfig` from `src/data.rs`: a community's scheduling config. -/
structure ServerConfig where
  guild_id : String
  checkin_channel_id : Option String
  timezone : String
  daily_time : String
  created_at : Int
  updated_at : Int
deriving DecidableEq

/-- Model of `DailyPost` as constructed in `DailyScheduler::post_daily_message` and
read by `StreakManager`: the single live cycle record for a guild. -/
structure DailyPost where
  guild_id : String
  channel_id : String
  message_id : String
  thread_id : Option String
  posted_at : Int
  created_at : Int
deriving DecidableEq

/-- Model of `BotData`: the shared in-memory store.  Each `HashMap` is a function
map; `daily_posts` holds the single latest post per guild. -/
structure BotData where
  servers : String → Option ServerConfig
  users : String → Option (String → Option UserData)
  daily_posts : String → Option DailyPost

/-- Model of `BotData::get_user`: `self.users.get(guild_id)?.get(user_id)`. -/
def BotData.getUser (data : BotData) (guild_id user_id : String) : Option UserData :=
  (data.users guild_id).bind (fun guild_users => guild_users user_id)

/-- In-place mutation of one user through the nested
`get_mut(guild).get_mut(user)` chain: pointwise update of the inner map.
If the guild has no user map, nothing changes (the `get_mut` chain would
have yielded `None`). -/
def set_user (data : BotData) (guild_id user_id : String) (u : UserData) : BotData :=
  { data with
    users := fun g =>
      if g = guild_id then
        (data.users g).map (fun m => fun i => if i = user_id then some u else m i)
      else data.users g }

/-- Model of `BotData::add_or_update_user`:
`users.entry(guild_id).or_insert_with(HashMap::new).insert(user_data.user_id, user_data)`. -/
def add_or_update_user (data : BotData) (guild_id : String) (u : UserData) : BotData :=
  { data with
    users := fun g =>
      if g = guild_id then
        some (fun i =>
          if i = u.user_id then some u
          else match data.users g with
               | some m => m i
               | none => none)
      else data.users g }

/-- Replacement of a guild's single live daily post:
`data.daily_posts.insert(guild_id.to_string(), daily_post)`. -/
def set_daily_post (data : BotData) (guild_id : String) (post : DailyPost) : BotData :=
  { data with
    daily_posts := fun g => if g = guild_id then some post else data.daily_posts g }

/-- Model of `StreakManager::should_apply_grace_period` (`src/streaks.rs:197-219`).
`today.signed_duration_since(last_checkin).num_days()` is an exact day
difference between `NaiveDate`s, hence plain subtraction. -/
def should_apply_grace_period (user : UserData) (last_checkin today : Int) : Bool :=
  if user.current_streak < 30 then false
  else
    let days_missed := today - last_checkin - 1
    if days_missed ≤ 2 then
      match user.grace_period_start with
      | some grace_start => decide (today - grace_start ≤ 2)
      | none => true
    else false

/-- The shared tail of `StreakManager::update_user_streak`
(`src/streaks.rs:155-161`): raise `longest_streak` if the current streak
exceeds it and stamp `updated_at`.  Every path of the `match` that does not
`return` early falls through to this code. -/
def finish_streak_update (user : UserData) (now : Int) : UserData :=
  { user with
    longest_streak :=
      if user.current_streak > user.longest_streak then user.current_streak
      else user.longest_streak,
    updated_at := now }

/-- Model of `StreakManager::update_user_streak` (`src/streaks.rs:118-162`).
The `last_date == response_date` arm `return`s before the shared tail; the
future-date arm only logs and then falls through to the tail. -/
def update_user_streak (user : UserData) (response_date now : Int) : UserData :=
  match user.last_checkin_date with
  | none =>
    -- First check-in ever
    finish_streak_update
      { user with current_streak := 1, last_checkin_date := some response_date } now
  | some last_date =>
    if last_date = response_date then
      -- Already checked in today: early return, tail skipped
      user
    else if last_date = response_date - 1 then
      -- Checked in yesterday: continue streak
      finish_streak_update
        { user with
          current_streak := user.current_streak + 1,
          last_checkin_date := some response_date } now
    else if last_date < response_date - 1 then
      if should_apply_grace_period user last_date response_date then
        finish_streak_update
          { user with
            current_streak := user.current_streak + 1,
            last_checkin_date := some response_date,
            grace_period_start :=
              match user.grace_period_start with
              | none => some (last_date + 1)
              | some g => some g } now
      else
        finish_streak_update
          { user with
            current_streak := 1,
            last_checkin_date := some response_date,
            grace_period_start := none } now
    else
      -- Check-in date in the past relative to last_checkin_date: the source
      -- only logs here, but control still reaches the shared tail.
      finish_streak_update user now

/-- Model of `StreakManager::is_valid_checkin_response` (`src/streaks.rs:42-61`). -/
def is_valid_checkin_response (data : BotData) (guild_id channel_id : String)
    (message_time : Int) : Bool :=
  match data.daily_posts guild_id with
  | some daily_post =>
    match daily_post.thread_id with
    | some thread_id =>
      if thread_id = channel_id then
        -- 24-hour deadline: daily post time + 24 hours
        decide (message_time ≤ daily_post.posted_at + 86400)
      else false
    | none => false
  | none => false

/-- The duplicate guard of `StreakManager::record_checkin`
(`src/streaks.rs:94-102`): skip when the user's last check-in is on or
after the day the current post was created. -/
def is_duplicate_checkin : Option Int → Option Int → Bool
  | some post_date, some last_checkin => decide (post_date ≤ last_checkin)
  | _, _ => false

/-- Model of `StreakManager::record_checkin` (`src/streaks.rs:64-115`).  The
trailing `data.save()` is persistence of the already-updated in-memory
state and does not alter it. -/
def record_checkin (data : BotData) (guild_id user_id : String)
    (message_time now : Int) : BotData :=
  let response_date := message_time / 86400
  let post_date := (data.daily_posts guild_id).map (fun post => post.posted_at / 86400)
  match data.getUser guild_id user_id with
  | none => data
  | some user =>
    if user.is_active then
      if is_duplicate_checkin post_date user.last_checkin_date then data
      else set_user data guild_id user_id (update_user_streak user response_date now)
    else data

/-- Model of `StreakManager::process_message` (`src/streaks.rs:22-39`): the inbound
message entry point.  `author_bot = msg.author.bot`, `guild_id? =
msg.guild_id`, `channel_id = msg.channel_id`, `message_time` the message
timestamp. -/
def process_message (data : BotData) (author_bot : Bool) (guild_id? : Option String)
    (channel_id user_id : String) (message_time now : Int) : BotData :=
  if author_bot then data
  else
    match guild_id? with
    | none => data
    | some guild_id =>
      if is_valid_checkin_response data guild_id channel_id message_time then
        record_checkin data guild_id user_id message_time now
      else data

/-- The per-user body of `StreakManager::reset_streaks_for_guild`
(`src/streaks.rs:170-190`): reset an active user's streak if they missed
yesterday's check-in and the grace period does not apply. -/
def maintain_user (user : UserData) (yesterday now : Int) : UserData :=
  if user.is_active then
    match user.last_checkin_date with
    | some last_checkin =>
      if last_checkin < yesterday then
        if should_apply_grace_period user last_checkin (yesterday + 1) then user
        else
          { user with current_streak := 0, grace_period_start := none, updated_at := now }
      else user
    | none => user
  else user

/-- Model of `StreakManager::reset_streaks_for_guild` (`src/streaks.rs:166-194`)
applied to the store.  `yesterday = Utc::now().date_naive().pred()`.  The
returned reset count exists only for logging and is not modelled; the
function never returns `Err`. -/
def reset_streaks_for_guild (data : BotData) (guild_id : String) (now : Int) : BotData :=
  let yesterday := now / 86400 - 1
  { data with
    users := fun g =>
      if g = guild_id then
        (data.users g).map (fun m => fun i => (m i).map (fun u => maintain_user u yesterday now))
      else data.users g }

/-- A fresh `UserData` as built by `register_goal`
(`src/commands/user.rs:100-110`). -/
def fresh_user (user_id goal : String) (now : Int) : UserData :=
  { user_id := user_id, goal := goal, current_streak := 0, longest_streak := 0,
    last_checkin_date := none, grace_period_start := none, is_active := true,
    created_at := now, updated_at := now }

/-- The reactivation arm of `register_goal` (`src/commands/user.rs:89-97`):
reset the streak fields and reactivate; `longest_streak` is not touched. -/
def reactivate_user (user : UserData) (goal : String) (now : Int) : UserData :=
  { user with
    goal := goal, current_streak := 0, last_checkin_date := none,
    grace_period_start := none, is_active := true, updated_at := now }

/-- The active-update arm of `register_goal` (`src/commands/user.rs:84-88`):
only the goal text and timestamp change. -/
def update_goal_user (user : UserData) (goal : String) (now : Int) : UserData :=
  { user with goal := goal, updated_at := now }

/-- The deactivation performed by `deregister`
(`src/commands/user.rs:172-174`). -/
def deactivate_user (user : UserData) (now : Int) : UserData :=
  { user with is_active := false, updated_at := now }

/-- The store transition of `register_goal` (`src/commands/user.rs:56-139`).
`goal.len()` counts bytes, hence `String.utf8ByteSize`.  Responses and
persistence do not alter the store state beyond what is shown. -/
def register_goal_update (data : BotData) (guild_id user_id goal : String)
    (now : Int) : BotData :=
  if goal.utf8ByteSize > 500 then data
  else
    match data.getUser guild_id user_id with
    | some existing_user =>
      if existing_user.is_active then
        set_user data guild_id user_id (update_goal_user existing_user goal now)
      else
        set_user data guild_id user_id (reactivate_user existing_user goal now)
    | none => add_or_update_user data guild_id (fresh_user user_id goal now)

/-- The store transition of `deregister` (`src/commands/user.rs:150-191`):
missing or already-inactive users produce an error response and no
mutation. -/
def deregister_update (data : BotData) (guild_id user_id : String) (now : Int) : BotData :=
  match data.getUser guild_id user_id with
  | none => data
  | some existing_user =>
    if existing_user.is_active then
      set_user data guild_id user_id (deactivate_user existing_user now)
    else data

/-- The external collaborators the scheduler consumes, as pure oracles for
one tick: `chrono` parsing of the configured `"%H:%M"` time (returned as
minutes since midnight, `hour*60 + minute`), `chrono_tz` resolution of the
IANA timezone name (returned as the zone's UTC offset in seconds at the
tick instant), numeric id parsing, and the announce / thread-create / ping
side effect (`none` models any of the three external calls failing;
`some (message_id, thread_id)` models success). -/
structure SchedEnv where
  parseTime : String → Option Nat
  parseTz : String → Option Int
  parseId : String → Option Nat
  postOutcome : String → Option (String × String)

/-- Model of `DailyScheduler::is_time_to_post` (`src/scheduler.rs:98-119`).  Parse
failures propagate as `Err` through the caller's `?`.  The local wall
clock at instant `now` in a zone of offset `off` has second-of-day
`(now + off) % 86400` (nonnegative divisor, so `%` floors exactly as the
civil-time conversion does), and `hour*60 + minute = second_of_day / 60`. -/
def is_time_to_post (env : SchedEnv) (daily_time timezone : String)
    (now : Int) : Except String Bool :=
  match env.parseTime daily_time with
  | none => Except.error "invalid daily_time"
  | some target_minutes =>
    match env.parseTz timezone with
    | none => Except.error "invalid timezone"
    | some offset =>
      let current_minutes : Int := ((now + offset) % 86400) / 60
      Except.ok (decide ((current_minutes - (target_minutes : Int)).natAbs < 1))

/-- Model of `DailyScheduler::already_posted_recently` (`src/scheduler.rs:122-134`).
`Duration::num_hours` truncates toward zero, hence `Int.tdiv`. -/
def already_posted_recently (data : BotData) (guild_id : String) (now : Int) : Bool :=
  match data.daily_posts guild_id with
  | some post => decide (Int.tdiv (now - post.posted_at) 3600 < 20)
  | none => false

/-- One guild's pass of `DailyScheduler::check_and_post_daily_messages`
(`src/scheduler.rs:44-91`).  The second component is `some e` when a `?`
fired (time/timezone parse, id parse, or any failure inside
`post_daily_message`), which aborts the surrounding sweep; streak
maintenance and its save happen before the id parses, so their effect
survives a later abort.  Errors from maintenance and saves themselves are
caught and logged.  `posted_at` of the new record is the wall clock, here
the tick's `now`. -/
def process_guild (env : SchedEnv) (cfg : ServerConfig) (data : BotData)
    (now : Int) : BotData × Option String :=
  match cfg.checkin_channel_id with
  | none => (data, none)
  | some channel_id =>
    match is_time_to_post env cfg.daily_time cfg.timezone now with
    | Except.error e => (data, some e)
    | Except.ok false => (data, none)
    | Except.ok true =>
      if already_posted_recently data cfg.guild_id now then (data, none)
      else
        let data2 := reset_streaks_for_guild data cfg.guild_id now
        match env.parseId cfg.guild_id with
        | none => (data2, some "invalid guild id")
        | some _ =>
          match env.parseId channel_id with
          | none => (data2, some "invalid channel id")
          | some _ =>
            match env.postOutcome cfg.guild_id with
            | none => (data2, some "announce failed")
            | some (message_id, thread_id) =>
              (set_daily_post data2 cfg.guild_id
                { guild_id := cfg.guild_id, channel_id := channel_id,
                  message_id := message_id, thread_id := some thread_id,
                  posted_at := now, created_at := now }, none)

/-- Model of `DailyScheduler::check_and_post_daily_messages` (`src/scheduler.rs:37-95`):
the sweep over the cloned `servers` map (`servers` is the iteration order
the `HashMap` happened to produce).  A `some` error from one guild's pass
propagates through `?` and ends the sweep; guilds after it are not
evaluated that tick. -/
def check_and_post_daily_messages (env : SchedEnv) (servers : List ServerConfig)
    (data : BotData) (now : Int) : BotData × Option String :=
  match servers with
  | [] => (data, none)
  | cfg :: rest =>
    match process_guild env cfg data now with
    | (data', some e) => (data', some e)
    | (data', none) => check_and_post_daily_messages env rest data' now

/-- The per-participant transitions the system can apply to a
`UserData` record: a credited check-in, cycle-close maintenance, goal
update on an active record, reactivation, and deactivation. -/
inductive UserStep : UserData → UserData → Prop
  | checkin (u : UserData) (response_date now : Int) :
      UserStep u (update_user_streak u response_date now)
  | maintain (u : UserData) (yesterday now : Int) :
      UserStep u (maintain_user u yesterday now)
  | update_goal (u : UserData) (goal : String) (now : Int) :
      UserStep u (update_goal_user u goal now)
  | reactivate (u : UserData) (goal : String) (now : Int) :
      UserStep u (reactivate_user u goal now)
  | deactivate (u : UserData) (now : Int) :
      UserStep u (deactivate_user u now)

/-- Participant states reachable from a fresh registration through the
system's transitions. -/
inductive ReachableUser : UserData → Prop
  | init (user_id goal : String) (now : Int) : ReachableUser (fresh_user user_id goal now)
  | step {u v : UserData} : ReachableUser u → UserStep u v → ReachableUser v

/-! ## Helper lemmas -/

/-- Reading back the user just written through the `get_mut` chain. -/
lemma getUser_set_user (data : BotData) (guild_id user_id : String) (v u : UserData)
    (h : data.getUser guild_id user_id = some u) :
    (set_user data guild_id user_id v).getUser guild_id user_id = some v := by
  unfold BotData.getUser set_user at *
  cases hm : data.users guild_id with
  | none => rw [hm] at h; simp at h
  | some m => simp [hm]

/-- Writing back the value a user slot already holds changes nothing. -/
lemma set_user_eq_self (data : BotData) (guild_id user_id : String) (u : UserData)
    (h : data.getUser guild_id user_id = some u) :
    set_user data guild_id user_id u = data := by
  unfold BotData.getUser at h
  unfold set_user
  have husers :
      (fun g =>
        if g = guild_id then
          (data.users g).map (fun m => fun i => if i = user_id then some u else m i)
        else data.users g) = data.users := by
    funext g
    by_cases hg : g = guild_id
    · subst hg
      rw [if_pos rfl]
      cases hm : data.users g with
      | none => simp
      | some m =>
        rw [hm] at h
        simp only [Option.map_some']
        congr 1
        funext i
        by_cases hi : i = user_id
        · subst hi
          simp only [if_pos rfl]
          simpa using h.symm
        · simp [hi]
    · simp [hg]
  rw [husers]

/-! ## Claim theorems -/

/-- Claim C10: a message authored by a bot account is never credited as a
check-in: `process_message` returns with the store unchanged whenever the
author is a bot, regardless of guild, channel, sender or timing. -/
theorem c10_bot_messages_never_credited (data : BotData) (guild_id? : Option String)
    (channel_id user_id : String) (message_time now : Int) :
    process_message data true guild_id? channel_id user_id message_time now = data := by
  simp [process_message]

/-- Claim C8 counterexample: a participant with `last_checkin_date` after the
response date (clock anomaly) is *not* left untouched: the credit attempt
rewrites `updated_at`, because the future-date arm of `update_user_streak`
falls through to the shared timestamp update. -/
def c8_user : UserData :=
  { user_id := "u8", goal := "g", current_streak := 3, longest_streak := 5,
    last_checkin_date := some 10, grace_period_start := none, is_active := true,
    created_at := 0, updated_at := 0 }

/-- Claim C8 is false as stated: at `last_checkin_date = 10`,
`response_date = 8`, clock `99`, the record's `updated_at` changes. -/
theorem c8_counterexample :
    c8_user.last_checkin_date = some 10 ∧ (8 : Int) < 10 ∧
    (update_user_streak c8_user 8 99).updated_at ≠ c8_user.updated_at := by
  decide

/-- Claim C8, amended: for a response dated before `last_checkin_date`, the
streak fields (`current_streak`, `last_checkin_date`, `grace_period_start`)
and the registration fields are unchanged, but the transition is not free of
mutation: `updated_at` is set to the current time (and `longest_streak` is
raised to `current_streak` in the hypothetical case where it was below it);
under the `longest_streak ≥ current_streak` invariant the *only* change is
`updated_at = now`. -/
theorem c8_amended_clock_anomaly (u : UserData) (d response_date now : Int)
    (h1 : u.last_checkin_date = some d) (h2 : response_date < d) :
    update_user_streak u response_date now = finish_streak_update u now
    ∧ (update_user_streak u response_date now).current_streak = u.current_streak
    ∧ (update_user_streak u response_date now).last_checkin_date = u.last_checkin_date
    ∧ (update_user_streak u response_date now).grace_period_start = u.grace_period_start
    ∧ (update_user_streak u response_date now).goal = u.goal
    ∧ (update_user_streak u response_date now).is_active = u.is_active
    ∧ (update_user_streak u response_date now).updated_at = now
    ∧ (u.current_streak ≤ u.longest_streak →
        update_user_streak u response_date now = { u with updated_at := now }) := by
  have hne1 : d ≠ response_date := by omega
  have hne2 : d ≠ response_date - 1 := by omega
  have hnlt : ¬ d < response_date - 1 := by omega
  have hmain : update_user_streak u response_date now = finish_streak_update u now := by
    simp [update_user_streak, h1, hne1, hne2, hnlt]
  refine ⟨hmain, ?_, ?_, ?_, ?_, ?_, ?_, ?_⟩ <;> rw [hmain] <;>
    simp [finish_streak_update, h1]
  intro hinv
  have : ¬ u.current_streak > u.longest_streak := by omega
  simp [this]

/-- Closed witness for `c8_amended_clock_anomaly` at the `c8_user` input. -/
theorem c8_amended_clock_anomaly_witness :
    c8_user.last_checkin_date = some 10 ∧ (8 : Int) < 10 ∧
    update_user_streak c8_user 8 99 = finish_streak_update c8_user 99 :=
  ⟨by decide, by decide,
    (c8_amended_clock_anomaly c8_user 10 8 99 (by decide) (by decide)).1⟩

/-- An inactive participant carrying streak history, for the C9 input. -/
def c9_user : UserData :=
  { user_id := "u9", goal := "old goal", current_streak := 0, longest_streak := 7,
    last_checkin_date := none, grace_period_start := none, is_active := false,
    created_at := 0, updated_at := 0 }

/-- A store holding only `c9_user`, registered in guild `g9`. -/
def c9_data : BotData :=
  { servers := fun _ => none,
    users := fun g =>
      if g = "g9" then some (fun i => if i = "u9" then some c9_user else none)
      else none,
    daily_posts := fun _ => none }

/-- Claim C9 counterexample: re-registering the inactive `c9_user` does not
reset `longest_streak` to zero — the reactivation arm of `register_goal`
leaves it at its historical value 7. -/
theorem c9_counterexample :
    c9_data.getUser "g9" "u9" = some c9_user ∧
    c9_user.is_active = false ∧
    ((register_goal_update c9_data "g9" "u9" "new goal" 50).getUser "g9" "u9").map
      UserData.longest_streak = some 7 ∧
    ((register_goal_update c9_data "g9" "u9" "new goal" 50).getUser "g9" "u9").map
      UserData.longest_streak ≠ some 0 := by
  refine ⟨rfl, rfl, ?_, ?_⟩ <;> decide

/-- Claim C9, amended: when a user with an existing `is_active = false`
record runs registration (with an acceptable goal length), the record is
retained and reactivated: `is_active = true`, `current_streak = 0`,
`last_checkin_date = None`, `grace_period_start = None` — but
`longest_streak` is preserved at its previous value rather than reset to
zero. -/
theorem c9_amended_reactivation (data : BotData) (guild_id user_id goal : String)
    (now : Int) (u : UserData)
    (hu : data.getUser guild_id user_id = some u)
    (hact : u.is_active = false)
    (hlen : goal.utf8ByteSize ≤ 500) :
    (register_goal_update data guild_id user_id goal now).getUser guild_id user_id =
      some (reactivate_user u goal now)
    ∧ (reactivate_user u goal now).is_active = true
    ∧ (reactivate_user u goal now).current_streak = 0
    ∧ (reactivate_user u goal now).last_checkin_date = none
    ∧ (reactivate_user u goal now).grace_period_start = none
    ∧ (reactivate_user u goal now).longest_streak = u.longest_streak
    ∧ (reactivate_user u goal now).goal = goal := by
  have hnotlong : ¬ goal.utf8ByteSize > 500 := by omega
  refine ⟨?_, ?_, ?_, ?_, ?_, ?_, ?_⟩ <;>
    simp [register_goal_update, hnotlong, hu, hact, reactivate_user]
  exact getUser_set_user data guild_id user_id _ u hu

/-- Closed witness for `c9_amended_reactivation` at the `c9_data` input. -/
theorem c9_amended_reactivation_witness :
    c9_data.getUser "g9" "u9" = some c9_user ∧
    c9_user.is_active = false ∧
    ("new goal").utf8ByteSize ≤ 500 ∧
    (register_goal_update c9_data "g9" "u9" "new goal" 50).getUser "g9" "u9" =
      some (reactivate_user c9_user "new goal" 50) :=
  ⟨rfl, rfl, by decide,
    (c9_amended_reactivation c9_data "g9" "u9" "new goal" 50 c9_user rfl rfl
      (by decide)).1⟩

/-- Claim C5: `longest_streak ≥ current_streak` is preserved by every
participant transition: a credited check-in (first check-in, consecutive-day
credit, grace credit and streak reset are the arms of
`update_user_streak`), cycle-close maintenance, registration (both the new
record and the goal-update of an active one), reactivation, and
deregistration. -/
theorem c5_longest_ge_current_preserved (u : UserData) (response_date yesterday now : Int)
    (user_id goal : String)
    (hinv : u.current_streak ≤ u.longest_streak) :
    (update_user_streak u response_date now).current_streak ≤
      (update_user_streak u response_date now).longest_streak
    ∧ (maintain_user u yesterday now).current_streak ≤
        (maintain_user u yesterday now).longest_streak
    ∧ (fresh_user user_id goal now).current_streak ≤
        (fresh_user user_id goal now).longest_streak
    ∧ (update_goal_user u goal now).current_streak ≤
        (update_goal_user u goal now).longest_streak
    ∧ (reactivate_user u goal now).current_streak ≤
        (reactivate_user u goal now).longest_streak
    ∧ (deactivate_user u now).current_streak ≤
        (deactivate_user u now).longest_streak := by
  have finish_inv : ∀ (v : UserData) (t : Int),
      (finish_streak_update v t).current_streak ≤ (finish_streak_update v t).longest_streak := by
    intro v t
    unfold finish_streak_update
    by_cases h : v.current_streak > v.longest_streak <;> simp [h] <;> omega
  refine ⟨?_, ?_, ?_, ?_, ?_, ?_⟩
  · unfold update_user_streak
    cases hl : u.last_checkin_date with
    | none => exact finish_inv _ _
    | some last_date =>
      by_cases h1 : last_date = response_date
      · simpa [h1] using hinv
      · by_cases h2 : last_date = response_date - 1
        · simp only [if_neg h1, if_pos h2]; exact finish_inv _ _
        · by_cases h3 : last_date < response_date - 1
          · simp only [if_neg h1, if_neg h2, if_pos h3]
            cases should_apply_grace_period u last_date response_date <;>
              simp only [Bool.false_eq_true, if_pos, if_neg, ite_true, ite_false] <;>
              exact finish_inv _ _
          · simp only [if_neg h1, if_neg h2, if_neg h3]; exact finish_inv _ _
  · unfold maintain_user
    by_cases ha : u.is_active
    · simp only [if_pos ha]
      cases hl : u.last_checkin_date with
      | none => exact hinv
      | some last_checkin =>
        by_cases h1 : last_checkin < yesterday
        · simp only [if_pos h1]
          cases should_apply_grace_period u last_checkin (yesterday + 1) <;>
            simp [hinv]
        · simpa [h1] using hinv
    · simpa [ha] using hinv
  · simp [fresh_user]
  · simpa [update_goal_user] using hinv
  · simp [reactivate_user]
  · simpa [deactivate_user] using hinv

/-- Closed witness for `c5_longest_ge_current_preserved`. -/
theorem c5_longest_ge_current_preserved_witness :
    c8_user.current_streak ≤ c8_user.longest_streak ∧
    (update_user_streak c8_user 12 7).current_streak ≤
      (update_user_streak c8_user 12 7).longest_streak :=
  ⟨by decide,
    (c5_longest_ge_current_preserved c8_user 12 3 7 "u" "g" (by decide)).1⟩

/-- The participant of the spec's grace-period examples:
`current_streak = 30`, `last_checkin_date = 2024-01-01` (epoch day 19723),
`grace_period_start = None`.  Days 19724, 19725, 19727 are 2024-01-02,
2024-01-03 and 2024-01-05. -/
def c1_user : UserData :=
  { user_id := "u1", goal := "goal", current_streak := 30, longest_streak := 30,
    last_checkin_date := some 19723, grace_period_start := none, is_active := true,
    created_at := 0, updated_at := 0 }

/-- Claim C1: for a participant with `last_checkin_date = d` and a response
dated `r` with `d < r - 1` (at least one whole missed day), the
grace-period branch applies iff `current_streak ≥ 30`, `days_missed =
(r - d) - 1 ≤ 2`, and — when `grace_period_start = g` is set —
`r - g ≤ 2`.  When it applies, `current_streak` is incremented,
`last_checkin_date` becomes `r`, and `grace_period_start` becomes `d + 1`
only if it was unset; otherwise the streak resets to 1 with
`grace_period_start = None`.  The spec's two concrete examples are
included as closed conjuncts. -/
theorem c1_grace_period_rule (u : UserData) (d r now : Int)
    (h1 : u.last_checkin_date = some d) (h2 : d < r - 1) :
    (should_apply_grace_period u d r = true ↔
      (30 ≤ u.current_streak ∧ r - d - 1 ≤ 2 ∧
        ∀ g, u.grace_period_start = some g → r - g ≤ 2))
    ∧ (should_apply_grace_period u d r = true →
        (update_user_streak u r now).current_streak = u.current_streak + 1
        ∧ (update_user_streak u r now).last_checkin_date = some r
        ∧ (update_user_streak u r now).grace_period_start =
            some (u.grace_period_start.getD (d + 1)))
    ∧ (should_apply_grace_period u d r = false →
        (update_user_streak u r now).current_streak = 1
        ∧ (update_user_streak u r now).last_checkin_date = some r
        ∧ (update_user_streak u r now).grace_period_start = none)
    ∧ (update_user_streak c1_user 19725 now).current_streak = 31
    ∧ (update_user_streak c1_user 19725 now).grace_period_start = some 19724
    ∧ (update_user_streak c1_user 19727 now).current_streak = 1
    ∧ (update_user_streak c1_user 19727 now).grace_period_start = none := by
  have hne1 : d ≠ r := by omega
  have hne2 : d ≠ r - 1 := by omega
  refine ⟨?_, ?_, ?_, ?_, ?_, ?_, ?_⟩
  · unfold should_apply_grace_period
    by_cases hc : u.current_streak < 30
    · simp [hc]
    · simp only [if_neg hc]
      by_cases hd : r - d - 1 ≤ 2
      · simp only [if_pos hd]
        cases hg : u.grace_period_start with
        | none => simp <;> omega
        | some g =>
          simp only [decide_eq_true_eq]
          constructor
          · intro hle
            refine ⟨by omega, hd, ?_⟩
            intro g' hg'
            cases hg'
            exact hle
          · intro ⟨_, _, hall⟩
            exact hall g rfl
      · simp only [if_neg hd]
        constructor
        · intro hfalse; cases hfalse
        · intro ⟨_, hd', _⟩; omega
  · intro happ
    simp only [update_user_streak, h1, if_neg hne1, if_neg hne2, if_pos h2, happ,
      ite_true, finish_streak_update]
    cases u.grace_period_start <;> simp
  · intro happ
    simp only [update_user_streak, h1, if_neg hne1, if_neg hne2, if_pos h2, happ,
      Bool.false_eq_true, ite_false, finish_streak_update]
    simp
  · simp [c1_user, update_user_streak, should_apply_grace_period, finish_streak_update]
  · simp [c1_user, update_user_streak, should_apply_grace_period, finish_streak_update]
  · simp [c1_user, update_user_streak, should_apply_grace_period, finish_streak_update]
  · simp [c1_user, update_user_streak, should_apply_grace_period, finish_streak_update]

/-- Closed witness for `c1_grace_period_rule` at the spec's example
participant. -/
theorem c1_grace_period_rule_witness :
    c1_user.last_checkin_date = some 19723 ∧ (19723 : Int) < 19725 - 1 ∧
    (should_apply_grace_period c1_user 19723 19725 = true ↔
      (30 ≤ c1_user.current_streak ∧ (19725 : Int) - 19723 - 1 ≤ 2 ∧
        ∀ g, c1_user.grace_period_start = some g → (19725 : Int) - g ≤ 2)) :=
  ⟨by decide, by decide,
    (c1_grace_period_rule c1_user 19723 19725 0 (by decide) (by decide)).1⟩

/-- An invalid response leaves the store untouched. -/
lemma process_message_invalid (data : BotData) (guild_id channel_id user_id : String)
    (message_time now : Int)
    (h : is_valid_checkin_response data guild_id channel_id message_time = false) :
    process_message data false (some guild_id) channel_id user_id message_time now = data := by
  simp [process_message, h]

/-- Claim C3: a candidate response is credited only if it is in the current
cycle's thread, within `posted_at + 24h`, and from an active registered
participant; a response failing any of the three checks produces no state
change.  The last conjunct is the spec's deadline example: one second past
the 24-hour deadline is never valid. -/
theorem c3_response_validity_gate (data : BotData) (guild_id channel_id user_id : String)
    (message_time now : Int) :
    ((∀ p, data.daily_posts guild_id = some p → p.thread_id ≠ some channel_id) →
      process_message data false (some guild_id) channel_id user_id message_time now = data)
    ∧ ((∀ p, data.daily_posts guild_id = some p → p.posted_at + 86400 < message_time) →
      process_message data false (some guild_id) channel_id user_id message_time now = data)
    ∧ ((∀ u, data.getUser guild_id user_id = some u → u.is_active = false) →
      process_message data false (some guild_id) channel_id user_id message_time now = data)
    ∧ (∀ p, data.daily_posts guild_id = some p →
        is_valid_checkin_response data guild_id channel_id (p.posted_at + 86401) = false) := by
  refine ⟨?_, ?_, ?_, ?_⟩
  · intro hall
    apply process_message_invalid
    unfold is_valid_checkin_response
    cases hp : data.daily_posts guild_id with
    | none => rfl
    | some p =>
      cases ht : p.thread_id with
      | none => simp [ht]
      | some tid =>
        have hne : tid ≠ channel_id := by
          intro heq
          exact hall p hp (by rw [ht, heq])
        simp [ht, hne]
  · intro hall
    apply process_message_invalid
    unfold is_valid_checkin_response
    cases hp : data.daily_posts guild_id with
    | none => rfl
    | some p =>
      have hlate := hall p hp
      cases ht : p.thread_id with
      | none => simp [ht]
      | some tid =>
        by_cases he : tid = channel_id
        · have hno : ¬ (message_time ≤ p.posted_at + 86400) := by omega
          simp [ht, he, hno]
        · simp [ht, he]
  · intro hall
    cases hu : data.getUser guild_id user_id with
    | none => simp [process_message, record_checkin, hu]
    | some u =>
      have hinact := hall u hu
      simp [process_message, record_checkin, hu, hinact]
  · intro p hp
    unfold is_valid_checkin_response
    rw [hp]
    cases ht : p.thread_id with
    | none => simp [ht]
    | some tid =>
      by_cases he : tid = channel_id
      · have hno : ¬ (p.posted_at + 86401 ≤ p.posted_at + 86400) := by omega
        simp [ht, he, hno]
      · simp [ht, he]

/-- A store with one cycle for guild `g3` whose thread is `thr`, posted at
second 1000000, and one active participant `u3`, for the C3 and C4
witnesses. -/
def c3_user : UserData :=
  { user_id := "u3", goal := "g", current_streak := 2, longest_streak := 2,
    last_checkin_date := some 11, grace_period_start := none, is_active := true,
    created_at := 0, updated_at := 0 }

def c3_post : DailyPost :=
  { guild_id := "g3", channel_id := "chan", message_id := "m", thread_id := some "thr",
    posted_at := 1000000, created_at := 1000000 }

def c3_data : BotData :=
  { servers := fun _ => none,
    users := fun g =>
      if g = "g3" then some (fun i => if i = "u3" then some c3_user else none)
      else none,
    daily_posts := fun g => if g = "g3" then some c3_post else none }

/-- Closed witness for `c3_response_validity_gate`: in `c3_data` a response
in channel `other` (not the cycle thread) changes nothing. -/
theorem c3_response_validity_gate_witness :
    (∀ p, c3_data.daily_posts "g3" = some p → p.thread_id ≠ some "other") ∧
    process_message c3_data false (some "g3") "other" "u3" 1000500 1000600 = c3_data := by
  have hall : ∀ p, c3_data.daily_posts "g3" = some p → p.thread_id ≠ some "other" := by
    intro p hp
    simp [c3_data] at hp
    subst hp
    decide
  exact ⟨hall,
    (c3_response_validity_gate c3_data "g3" "other" "u3" 1000500 1000600).1 hall⟩

/-- Lemma: `update_user_streak` never changes the activation flag. -/
lemma update_user_streak_is_active (u : UserData) (response_date now : Int) :
    (update_user_streak u response_date now).is_active = u.is_active := by
  cases hl : u.last_checkin_date with
  | none => simp [update_user_streak, hl, finish_streak_update]
  | some last_date =>
    simp only [update_user_streak, hl]
    split_ifs <;> simp [finish_streak_update]

/-- The streak-update tail is idempotent for a fixed clock. -/
lemma finish_streak_update_idem (u : UserData) (now : Int) :
    finish_streak_update (finish_streak_update u now) now = finish_streak_update u now := by
  unfold finish_streak_update
  by_cases hm : u.current_streak > u.longest_streak <;> simp [hm]

/-- Crediting the same response date twice is a no-op the second time. -/
lemma update_user_streak_idem (u : UserData) (response_date now : Int) :
    update_user_streak (update_user_streak u response_date now) response_date now =
      update_user_streak u response_date now := by
  unfold update_user_streak
  cases hl : u.last_checkin_date with
  | none => simp [finish_streak_update]
  | some last_date =>
    by_cases h1 : last_date = response_date
    · simp [h1, hl]
    · by_cases h2 : last_date = response_date - 1
      · simp [h1, h2, hl, finish_streak_update]
      · by_cases h3 : last_date < response_date - 1
        · cases hg : should_apply_grace_period u last_date response_date with
          | false => simp [h1, h2, h3, hg, hl, finish_streak_update]
          | true => simp [h1, h2, h3, hg, hl, finish_streak_update]
        · simp only [if_neg h1, if_neg h2, if_neg h3]
          have hfin : (finish_streak_update u now).last_checkin_date = some last_date := by
            simp [finish_streak_update, hl]
          rw [hfin]
          simp only [if_neg h1, if_neg h2, if_neg h3]
          exact finish_streak_update_idem u now

/-- Running `record_checkin` twice with the same message is the same as
running it once: whatever the first run did, the second run is a no-op. -/
lemma record_checkin_idem (data : BotData) (guild_id user_id : String)
    (message_time now : Int) :
    record_checkin (record_checkin data guild_id user_id message_time now)
        guild_id user_id message_time now =
      record_checkin data guild_id user_id message_time now := by
  cases hu : data.getUser guild_id user_id with
  | none =>
    have h1 : record_checkin data guild_id user_id message_time now = data := by
      simp [record_checkin, hu]
    rw [h1, h1]
  | some u =>
    by_cases hact : u.is_active = true
    · by_cases hdup : is_duplicate_checkin
          ((data.daily_posts guild_id).map (fun post => post.posted_at / 86400))
          u.last_checkin_date = true
      · have h1 : record_checkin data guild_id user_id message_time now = data := by
          simp [record_checkin, hu, hact, hdup]
        rw [h1, h1]
      · have h1 : record_checkin data guild_id user_id message_time now =
            set_user data guild_id user_id (update_user_streak u (message_time / 86400) now) := by
          simp [record_checkin, hu, hact, hdup]
        rw [h1]
        have hg2 : (set_user data guild_id user_id
              (update_user_streak u (message_time / 86400) now)).getUser guild_id user_id =
            some (update_user_streak u (message_time / 86400) now) :=
          getUser_set_user data guild_id user_id _ u hu
        have hact' : (update_user_streak u (message_time / 86400) now).is_active = true := by
          rw [update_user_streak_is_active]; exact hact
        have hposts : (set_user data guild_id user_id
              (update_user_streak u (message_time / 86400) now)).daily_posts =
            data.daily_posts := rfl
        by_cases hdup' : is_duplicate_checkin
            ((data.daily_posts guild_id).map (fun post => post.posted_at / 86400))
            (update_user_streak u (message_time / 86400) now).last_checkin_date = true
        · simp [record_checkin, hg2, hact', hposts, hdup']
        · have hstep : record_checkin
              (set_user data guild_id user_id (update_user_streak u (message_time / 86400) now))
              guild_id user_id message_time now =
              set_user (set_user data guild_id user_id
                  (update_user_streak u (message_time / 86400) now))
                guild_id user_id
                (update_user_streak (update_user_streak u (message_time / 86400) now)
                  (message_time / 86400) now) := by
            simp [record_checkin, hg2, hact', hposts, hdup']
          rw [hstep, update_user_streak_idem]
          exact set_user_eq_self _ guild_id user_id _ hg2
    · have hinact : u.is_active = false := by
        cases h : u.is_active
        · rfl
        · exact absurd h hact
      have h1 : record_checkin data guild_id user_id message_time now = data := by
        simp [record_checkin, hu, hinact]
      rw [h1, h1]

/-- Claim C4: a response in a cycle the participant has already been credited
for is ignored — when `last_checkin_date` is at or after the date the
current cycle was posted on, `record_checkin` changes no field of the store
— and crediting the same response twice always yields the state of
crediting it once. -/
theorem c4_duplicate_credit_idempotent (data : BotData) (guild_id user_id : String)
    (message_time now : Int) (p : DailyPost) (u : UserData) (last_checkin : Int)
    (hp : data.daily_posts guild_id = some p)
    (hu : data.getUser guild_id user_id = some u)
    (hact : u.is_active = true)
    (hlc : u.last_checkin_date = some last_checkin)
    (hge : p.posted_at / 86400 ≤ last_checkin) :
    record_checkin data guild_id user_id message_time now = data
    ∧ ∀ d2 : BotData,
        record_checkin (record_checkin d2 guild_id user_id message_time now)
            guild_id user_id message_time now =
          record_checkin d2 guild_id user_id message_time now := by
  constructor
  · have hdup : is_duplicate_checkin
        ((data.daily_posts guild_id).map (fun post => post.posted_at / 86400))
        u.last_checkin_date = true := by
      rw [hp, hlc]
      simpa [is_duplicate_checkin] using hge
    simp [record_checkin, hu, hact, hdup]
  · intro d2
    exact record_checkin_idem d2 guild_id user_id message_time now

/-- Closed witness for `c4_duplicate_credit_idempotent`: `c3_user` already
checked in on day 11; the cycle was posted on day `1000000 / 86400 = 11`,
so a further response on day 11 changes nothing. -/
theorem c4_duplicate_credit_idempotent_witness :
    c3_data.daily_posts "g3" = some c3_post ∧
    c3_data.getUser "g3" "u3" = some c3_user ∧
    c3_user.is_active = true ∧
    c3_user.last_checkin_date = some 11 ∧
    c3_post.posted_at / 86400 ≤ 11 ∧
    record_checkin c3_data "g3" "u3" 1000500 1000600 = c3_data :=
  ⟨rfl, rfl, rfl, rfl, by decide,
    (c4_duplicate_credit_idempotent c3_data "g3" "u3" 1000500 1000600 c3_post c3_user 11
      rfl rfl rfl rfl (by decide)).1⟩

/-- The inductive invariant tied to the grace window: whenever
`grace_period_start` is set, the streak is at least 30 and there is a
recorded last check-in. -/
def GraceInv (u : UserData) : Prop :=
  u.grace_period_start.isSome = true →
    30 ≤ u.current_streak ∧ u.last_checkin_date.isSome = true

/-- The grace test only passes for streaks of at least 30. -/
lemma should_apply_ge_30 (u : UserData) (last_checkin today : Int)
    (h : should_apply_grace_period u last_checkin today = true) :
    30 ≤ u.current_streak := by
  unfold should_apply_grace_period at h
  by_cases hc : u.current_streak < 30
  · simp [hc] at h
  · omega

/-- Every participant transition preserves `GraceInv`. -/
lemma userStep_preserves_graceInv {u v : UserData} (hs : UserStep u v)
    (hi : GraceInv u) : GraceInv v := by
  cases hs with
  | checkin response_date now =>
    cases hl : u.last_checkin_date with
    | none =>
      intro hsome
      have : u.grace_period_start.isSome = true := by
        simpa [GraceInv, update_user_streak, hl, finish_streak_update] using hsome
      have h2 := (hi this).2
      rw [hl] at h2
      simp at h2
    | some last_date =>
      by_cases h1 : last_date = response_date
      · simpa [GraceInv, update_user_streak, hl, h1] using hi
      · by_cases h2 : last_date = response_date - 1
        · intro hsome
          have hg : u.grace_period_start.isSome = true := by
            simpa [GraceInv, update_user_streak, hl, h1, h2, finish_streak_update] using hsome
          have := (hi hg).1
          simp [GraceInv, update_user_streak, hl, h1, h2, finish_streak_update]
          omega
        · by_cases h3 : last_date < response_date - 1
          · cases hgr : should_apply_grace_period u last_date response_date with
            | true =>
              intro _
              have h30 := should_apply_ge_30 u last_date response_date hgr
              simp [GraceInv, update_user_streak, hl, h1, h2, h3, hgr, finish_streak_update]
              omega
            | false =>
              intro hsome
              simp [update_user_streak, hl, h1, h2, h3, hgr, finish_streak_update] at hsome
          · simpa [GraceInv, update_user_streak, hl, h1, h2, h3, finish_streak_update] using hi
  | maintain yesterday now =>
    by_cases ha : u.is_active = true
    · cases hl : u.last_checkin_date with
      | none => simpa [GraceInv, maintain_user, ha, hl] using hi
      | some last_checkin =>
        by_cases h1 : last_checkin < yesterday
        · cases hgr : should_apply_grace_period u last_checkin (yesterday + 1) with
          | true => simpa [GraceInv, maintain_user, ha, hl, h1, hgr] using hi
          | false =>
            intro hsome
            simp [maintain_user, ha, hl, h1, hgr] at hsome
        · simpa [GraceInv, maintain_user, ha, hl, h1] using hi
    · have ha' : u.is_active = false := by
        cases h : u.is_active
        · rfl
        · exact absurd h ha
      simpa [GraceInv, maintain_user, ha'] using hi
  | update_goal goal now => simpa [GraceInv, update_goal_user] using hi
  | reactivate goal now =>
    intro hsome
    simp [reactivate_user] at hsome
  | deactivate now => simpa [GraceInv, deactivate_user] using hi

/-- Every reachable participant state satisfies `GraceInv`. -/
lemma reachableUser_graceInv {u : UserData} (h : ReachableUser u) : GraceInv u := by
  induction h with
  | init user_id goal now =>
    intro hsome
    simp [fresh_user] at hsome
  | step _ hs ih => exact userStep_preserves_graceInv hs ih

/-- An inactive long-streak record for the C6 witness. -/
def c6_user : UserData :=
  { user_id := "u6", goal := "g", current_streak := 3, longest_streak := 5,
    last_checkin_date := some 10, grace_period_start := none, is_active := true,
    created_at := 0, updated_at := 0 }

/-- Claim C6: in every reachable participant state, `grace_period_start` is
`Some` only when `current_streak ≥ 30`; and both streak-resetting
transitions — the cycle-close maintenance reset (when it fires: active
user, missed day, grace test false) and reactivation through registration —
leave `grace_period_start = None` (with the maintenance reset also setting
`current_streak = 0`). -/
theorem c6_grace_requires_long_streak (u v : UserData) (last_checkin yesterday now : Int)
    (goal : String)
    (hu : ReachableUser u)
    (hv1 : v.is_active = true)
    (hv2 : v.last_checkin_date = some last_checkin)
    (hv3 : last_checkin < yesterday)
    (hv4 : should_apply_grace_period v last_checkin (yesterday + 1) = false) :
    (u.grace_period_start.isSome = true → 30 ≤ u.current_streak)
    ∧ maintain_user v yesterday now =
        { v with current_streak := 0, grace_period_start := none, updated_at := now }
    ∧ (reactivate_user v goal now).grace_period_start = none := by
  refine ⟨fun hs => (reachableUser_graceInv hu hs).1, ?_, rfl⟩
  simp [maintain_user, hv1, hv2, hv3, hv4]

/-- Closed witness for `c6_grace_requires_long_streak`: a fresh registration
is reachable, and `c6_user` (streak 3) fails the grace test after missing
day 11. -/
theorem c6_grace_requires_long_streak_witness :
    c6_user.is_active = true ∧
    c6_user.last_checkin_date = some 10 ∧
    (10 : Int) < 12 ∧
    should_apply_grace_period c6_user 10 13 = false ∧
    maintain_user c6_user 12 99 =
      { c6_user with current_streak := 0, grace_period_start := none, updated_at := 99 } :=
  ⟨rfl, rfl, by decide, by decide,
    (c6_grace_requires_long_streak (fresh_user "w" "g" 0) c6_user 10 12 99 "g2"
      (ReachableUser.init "w" "g" 0) rfl rfl (by decide) (by decide)).2.1⟩

/-- Rust's truncating `num_hours < 20` coincides with the plain
"less than 20 hours in seconds" bound on integers. -/
lemma tdiv_3600_lt_20_iff (x : Int) : Int.tdiv x 3600 < 20 ↔ x < 72000 := by
  cases x with
  | ofNat m =>
    simp [Int.tdiv]
    omega
  | negSucc m =>
    simp [Int.tdiv, Int.negSucc_eq]
    omega

/-- Claim C2: with a configured announce channel and parseable time-of-day
and timezone (and the external id parses and announce succeeding), one
guild's scheduler pass opens a new cycle iff the tick lands in the
configured local minute (`|local_minutes - configured_minutes| < 1`) and no
existing cycle is within the 20-hour suppression window (`num_hours < 20`
is exactly `now - posted_at < 72000 s`); when it opens, the new cycle has
`posted_at = now` and streak maintenance has run; otherwise nothing
changes.  Consequently a second tick within the same minute (indeed within
20 hours) of a successful post changes nothing. -/
theorem c2_due_check_and_suppression (env : SchedEnv) (cfg : ServerConfig) (data : BotData)
    (now now2 : Int) (channel_id : String) (target gid_num ch_num : Nat) (offset : Int)
    (message_id thread_id : String)
    (hch : cfg.checkin_channel_id = some channel_id)
    (htime : env.parseTime cfg.daily_time = some target)
    (htz : env.parseTz cfg.timezone = some offset)
    (hgid : env.parseId cfg.guild_id = some gid_num)
    (hchid : env.parseId channel_id = some ch_num)
    (hpost : env.postOutcome cfg.guild_id = some (message_id, thread_id)) :
    (is_time_to_post env cfg.daily_time cfg.timezone now = Except.ok true ↔
      ((((now + offset) % 86400) / 60 : Int) - (target : Int)).natAbs < 1)
    ∧ (already_posted_recently data cfg.guild_id now = true ↔
        ∃ p, data.daily_posts cfg.guild_id = some p ∧ now - p.posted_at < 72000)
    ∧ (is_time_to_post env cfg.daily_time cfg.timezone now = Except.ok true →
        already_posted_recently data cfg.guild_id now = false →
        process_guild env cfg data now =
          (set_daily_post (reset_streaks_for_guild data cfg.guild_id now) cfg.guild_id
            { guild_id := cfg.guild_id, channel_id := channel_id,
              message_id := message_id, thread_id := some thread_id,
              posted_at := now, created_at := now }, none))
    ∧ ((is_time_to_post env cfg.daily_time cfg.timezone now = Except.ok false ∨
        already_posted_recently data cfg.guild_id now = true) →
        process_guild env cfg data now = (data, none))
    ∧ (is_time_to_post env cfg.daily_time cfg.timezone now = Except.ok true →
        already_posted_recently data cfg.guild_id now = false →
        now ≤ now2 → now2 < now + 72000 →
        process_guild env cfg (process_guild env cfg data now).1 now2 =
          ((process_guild env cfg data now).1, none)) := by
  have hopen : is_time_to_post env cfg.daily_time cfg.timezone now = Except.ok true →
      already_posted_recently data cfg.guild_id now = false →
      process_guild env cfg data now =
        (set_daily_post (reset_streaks_for_guild data cfg.guild_id now) cfg.guild_id
          { guild_id := cfg.guild_id, channel_id := channel_id,
            message_id := message_id, thread_id := some thread_id,
            posted_at := now, created_at := now }, none) := by
    intro hdue hrec
    simp [process_guild, hch, hdue, hrec, hgid, hchid, hpost]
  refine ⟨?_, ?_, hopen, ?_, ?_⟩
  · simp [is_time_to_post, htime, htz]
  · unfold already_posted_recently
    cases hp : data.daily_posts cfg.guild_id with
    | none => simp
    | some p => simp [tdiv_3600_lt_20_iff]
  · intro h
    rcases h with hfalse | htrue
    · simp [process_guild, hch, hfalse]
    · obtain ⟨b, hb⟩ : ∃ b, is_time_to_post env cfg.daily_time cfg.timezone now =
          Except.ok b := ⟨_, by unfold is_time_to_post; rw [htime, htz]⟩
      cases b
      · simp [process_guild, hch, hb]
      · simp [process_guild, hch, hb, htrue]
  · intro hdue hrec h1 h2
    rw [hopen hdue hrec]
    have hrec2 : already_posted_recently
        (set_daily_post (reset_streaks_for_guild data cfg.guild_id now) cfg.guild_id
          { guild_id := cfg.guild_id, channel_id := channel_id,
            message_id := message_id, thread_id := some thread_id,
            posted_at := now, created_at := now }) cfg.guild_id now2 = true := by
      simp [already_posted_recently, set_daily_post, tdiv_3600_lt_20_iff]
      omega
    obtain ⟨b, hb⟩ : ∃ b, is_time_to_post env cfg.daily_time cfg.timezone now2 =
        Except.ok b := ⟨_, by unfold is_time_to_post; rw [htime, htz]⟩
    cases b
    · simp [process_guild, hch, hb]
    · simp [process_guild, hch, hb, hrec2]

/-- A concrete tick environment for the scheduler witnesses: `09:00`
parses to 540 minutes, `UTC` to offset 0, `Bad/Zone` fails to parse,
small numeric ids parse, and the announce side effect succeeds. -/
def c2_env : SchedEnv :=
  { parseTime := fun s => if s = "09:00" then some 540 else none,
    parseTz := fun s => if s = "UTC" then some 0 else none,
    parseId := fun s =>
      if s = "1" then some 1 else if s = "2" then some 2 else
      if s = "5" then some 5 else none,
    postOutcome := fun g => some ("m" ++ g, "t" ++ g) }

/-- Guild `2`, due at 09:00 UTC. -/
def c2_cfg : ServerConfig :=
  { guild_id := "2", checkin_channel_id := some "5", timezone := "UTC",
    daily_time := "09:00", created_at := 0, updated_at := 0 }

/-- An empty store for the scheduler witnesses. -/
def c2_data : BotData :=
  { servers := fun _ => none, users := fun _ => none, daily_posts := fun _ => none }

/-- Closed witness for `c2_due_check_and_suppression` at 09:00:00 UTC
(second 32400 of the epoch day). -/
theorem c2_due_check_and_suppression_witness :
    c2_cfg.checkin_channel_id = some "5" ∧
    c2_env.parseTime c2_cfg.daily_time = some 540 ∧
    c2_env.parseTz c2_cfg.timezone = some 0 ∧
    (is_time_to_post c2_env c2_cfg.daily_time c2_cfg.timezone 32400 = Except.ok true ↔
      ((((32400 + 0 : Int) % 86400) / 60 : Int) - (540 : Nat)).natAbs < 1) :=
  ⟨rfl, rfl, rfl,
    (c2_due_check_and_suppression c2_env c2_cfg c2_data 32400 32430 "5" 540 2 5 0
      "m2" "t2" rfl rfl rfl rfl rfl rfl).1⟩

/-- Guild `1`, configured with a timezone string `chrono_tz` cannot parse. -/
def c7_cfg_bad : ServerConfig :=
  { guild_id := "1", checkin_channel_id := some "5", timezone := "Bad/Zone",
    daily_time := "09:00", created_at := 0, updated_at := 0 }

/-- Claim C7 fails on the code: in a sweep over `[c7_cfg_bad, c2_cfg]` at
09:00:00 UTC, the first guild's invalid timezone makes
`is_time_to_post` return `Err`, the `?` in
`check_and_post_daily_messages` aborts the whole sweep, and guild `2` —
which on its own is due and would open a cycle with `posted_at = 32400` —
gets no cycle this tick. -/
theorem c7_sweep_aborts_on_first_failure :
    check_and_post_daily_messages c2_env [c7_cfg_bad, c2_cfg] c2_data 32400 =
      (c2_data, some "invalid timezone")
    ∧ (check_and_post_daily_messages c2_env [c7_cfg_bad, c2_cfg] c2_data 32400).1.daily_posts
        "2" = none
    ∧ (process_guild c2_env c2_cfg c2_data 32400).1.daily_posts "2" =
        some { guild_id := "2", channel_id := "5", message_id := "m2",
               thread_id := some "t2", posted_at := 32400, created_at := 32400 } := by
  refine ⟨?_, ?_, ?_⟩
  · rfl
  · rfl
  · rfl
